import Mathlib
/-!
Verification of the harvesting/registration core of the
scraping-database-generator repository, shallowly embedded in Lean.

The embedded code comes from:
  - src/model/scraping/connector.py  (Connector, ProfileConnector)
  - src/model/scraping/scraping_plugins.py  (ScrapingPlugin)
  - src/model/scraping/data_model.py  (SQLAlchemy schema)
and, where the repository does not ship the code (the Content Registry,
the GenericPlugin base class), from the specification, as marked.

External effects (HTTP requests, the json / lxml parsers, the dynamic
module loader, the asset download helper) are passed in as function
parameters; Python exceptions are modelled with the Except monad.
Python names ending in a suffix the development cannot use are renamed
to camel case (feed_info_parser becomes feedInfoParser, and so on).
-/

/-- Model of the Python exceptions that flow through the scraping core. -/
inductive PyErr
  | keyError (k : String)
  | attributeError
  | importException (msg : String)
  | jsonDecodeError
  | parserError (msg : String)
  | other (msg : String)
deriving Repr, DecidableEq

/-- Model of the Python substring test (the binary operator checking that
the first list of characters occurs contiguously inside the second). -/
def isSubstring (needle : List Char) : List Char → Bool
  | [] => needle.isEmpty
  | c :: t => needle.isPrefixOf (c :: t) || isSubstring needle t

/-- Characters allowed after the first character of a URL scheme,
as accepted by Python urllib.parse. -/
def isSchemeChar (c : Char) : Bool :=
  c.isAlphanum || c == '+' || c == '-' || c == '.'

/-- Model of the scheme-splitting step of Python urlparse: when the input
starts with a well-formed scheme followed by a colon, drop both. -/
def dropScheme (cs : List Char) : List Char :=
  match cs.dropWhile (fun c => c != ':') with
  | [] => cs
  | _ :: after =>
    match cs.takeWhile (fun c => c != ':') with
    | [] => cs
    | b :: bs => if b.isAlpha && bs.all isSchemeChar then after else cs

/-- A character that still belongs to the network-location component. -/
def netlocChar (c : Char) : Bool :=
  c != '/' && c != '?' && c != '#'

/-- Model of the netloc extraction of Python urlparse: the characters
between a leading double slash (after the scheme) and the next
delimiter, and the empty list when there is no double slash. -/
def netlocChars (cs : List Char) : List Char :=
  match dropScheme cs with
  | '/' :: '/' :: rest => rest.takeWhile netlocChar
  | _ => []

/-- Model of Python urlparse(url).netloc. -/
def netloc (url : String) : String :=
  String.mk (netlocChars url.toList)

/-- Per-call HTTP request metadata, a model of the Python dictionary the
connector reads with .get (absent keys read as None).  The add_extension
key is only read by download_asset. -/
structure RequestMetadata where
  headers : Option String := none
  proxies : Option String := none
  cookies : Option String := none
  stream : Option String := none
  verify : Option String := none
  cert : Option String := none
  add_extension : Option Bool := none
deriving Repr, DecidableEq

/-- Result of interpreting a response body: a structured (JSON) document
or a tree-structured (HTML) document, payloads kept abstract as strings. -/
inductive Parsed
  | jsonValue (j : String)
  | htmlTree (h : String)
deriving Repr, DecidableEq

/-- One observable action of a traversal method: an HTTP fetch, or one
invocation of a registration callback with one extracted descriptor.
The kind tag records which callback was invoked. -/
inductive ScrapeEvent
  | fetch (url : String)
  | cb (kind : String) (entry : String)
deriving Repr, DecidableEq

/-- A ProfileConnector after construction: the profile scalars plus the
six resolved parser/extractor functions (connector.py lines 101-138).
Parsers and extractors may raise, modelled with Except. -/
structure ProfileConnector where
  source : String
  base_url : String
  authorization : String
  feedInfoParser : Parsed → Except PyErr String
  channelInfoParser : Parsed → Except PyErr String
  assetInfoParser : Parsed → Except PyErr String
  channel_extractor : Parsed → Except PyErr (List String)
  asset_extractor : Parsed → Except PyErr (List String)
  file_extractor : Parsed → Except PyErr (List String)

/-- connector.py line 165: urlparse(url).netloc in self.base_url -/
def ProfileConnector.validate_url_responsiblity (c : ProfileConnector) (url : String) : Bool :=
  isSubstring (netlocChars url.toList) c.base_url.toList

/-- The claim's reading of responsibility: the URL's network location
equals the connector's authority, the netloc of its base_url. -/
def authorityMatches (c : ProfileConnector) (url : String) : Bool :=
  netloc url == netloc c.base_url

/-- connector.py lines 167-185.  The HTTP layer (requests.get) is the
parameter net, returning the response content for a URL and metadata;
json.loads is the parameter jsonLoads, whose failure (the caught
JSONDecodeError) is none; lxml html.fromstring is the parameter
htmlFromString, which may raise.  A None metadata dictionary raises
AttributeError when its .get is taken, before any request is issued. -/
def _build_request_from_metadata (net : String → RequestMetadata → String)
    (jsonLoads : String → Option String)
    (htmlFromString : String → Except PyErr String)
    (url : String) (metadata : Option RequestMetadata) : Except PyErr Parsed :=
  match metadata with
  | none => Except.error PyErr.attributeError
  | some md =>
    let content := net url md
    match jsonLoads content with
    | some j => Except.ok (Parsed.jsonValue j)
    | none =>
      match htmlFromString content with
      | Except.ok h => Except.ok (Parsed.htmlTree h)
      | Except.error e => Except.error e

/-- The fetch events a call to _build_request_from_metadata performs: one
request when the metadata dictionary is present, none when the None
metadata raises before requests.get is reached. -/
def requestTrace (url : String) (metadata : Option RequestMetadata) : List ScrapeEvent :=
  match metadata with
  | none => []
  | some _ => [ScrapeEvent.fetch url]

/-- connector.py lines 188-204 (scrape_feed).  Callbacks are modelled by
whether they are given (non-None); each invocation is recorded as one
cb event, in program order.  The first component is the full event
trace, the second the returned feed info (or the propagated error). -/
def scrape_feed (c : ProfileConnector) (net : String → RequestMetadata → String)
    (jsonLoads : String → Option String) (htmlFromString : String → Except PyErr String)
    (feed_url : String) (feed_metadata : Option RequestMetadata)
    (channel_registration_callback asset_registration_callback : Bool) :
    List ScrapeEvent × Except PyErr String :=
  match _build_request_from_metadata net jsonLoads htmlFromString feed_url feed_metadata with
  | Except.error e => (requestTrace feed_url feed_metadata, Except.error e)
  | Except.ok parsed =>
    match (if channel_registration_callback then c.channel_extractor parsed else Except.ok []) with
    | Except.error e => (requestTrace feed_url feed_metadata, Except.error e)
    | Except.ok channel_entries =>
      match (if asset_registration_callback then c.asset_extractor parsed else Except.ok []) with
      | Except.error e =>
        (requestTrace feed_url feed_metadata ++
          channel_entries.map (ScrapeEvent.cb "channel"), Except.error e)
      | Except.ok asset_entries =>
        (requestTrace feed_url feed_metadata ++
          channel_entries.map (ScrapeEvent.cb "channel") ++
          asset_entries.map (ScrapeEvent.cb "asset"),
         c.feedInfoParser parsed)

/-- connector.py lines 208-220 (scrape_channel). -/
def scrape_channel (c : ProfileConnector) (net : String → RequestMetadata → String)
    (jsonLoads : String → Option String) (htmlFromString : String → Except PyErr String)
    (channel_url : String) (channel_metadata : Option RequestMetadata)
    (registration_callback : Bool) :
    List ScrapeEvent × Except PyErr String :=
  match _build_request_from_metadata net jsonLoads htmlFromString channel_url channel_metadata with
  | Except.error e => (requestTrace channel_url channel_metadata, Except.error e)
  | Except.ok parsed =>
    match (if registration_callback then c.asset_extractor parsed else Except.ok []) with
    | Except.error e => (requestTrace channel_url channel_metadata, Except.error e)
    | Except.ok asset_entries =>
      (requestTrace channel_url channel_metadata ++
        asset_entries.map (ScrapeEvent.cb "asset"),
       c.channelInfoParser parsed)

/-- connector.py lines 223-235 (scrape_asset). -/
def scrape_asset (c : ProfileConnector) (net : String → RequestMetadata → String)
    (jsonLoads : String → Option String) (htmlFromString : String → Except PyErr String)
    (asset_url : String) (asset_metadata : Option RequestMetadata)
    (registration_callback : Bool) :
    List ScrapeEvent × Except PyErr String :=
  match _build_request_from_metadata net jsonLoads htmlFromString asset_url asset_metadata with
  | Except.error e => (requestTrace asset_url asset_metadata, Except.error e)
  | Except.ok parsed =>
    match (if registration_callback then c.file_extractor parsed else Except.ok []) with
    | Except.error e => (requestTrace asset_url asset_metadata, Except.error e)
    | Except.ok file_entries =>
      (requestTrace asset_url asset_metadata ++
        file_entries.map (ScrapeEvent.cb "file"),
       c.assetInfoParser parsed)

/-- Arguments the connector passes to the external download_web_asset
helper (connector.py lines 247-251). -/
structure DownloadCall where
  asset_url : String
  output_path : String
  add_extension : Bool
  headers : Option String
deriving Repr, DecidableEq

/-- The argument record the try body passes to the download helper. -/
def downloadCallOf (output_path asset_url : String) (md : RequestMetadata) : DownloadCall :=
  { asset_url := asset_url, output_path := output_path,
    add_extension := md.add_extension.getD false, headers := md.headers }

/-- The body of the try block of download_asset (connector.py lines
246-252), before the except clause: reading .get on a None metadata
dictionary raises AttributeError, the download helper itself may raise,
and on success the body returns True. -/
def download_asset_try_body (download_web_asset : DownloadCall → Except PyErr Unit)
    (output_path asset_url : String) (asset_metadata : Option RequestMetadata) :
    Except PyErr Bool :=
  match asset_metadata with
  | none => Except.error PyErr.attributeError
  | some md =>
    match download_web_asset (downloadCallOf output_path asset_url md) with
    | Except.ok _ => Except.ok true
    | Except.error e => Except.error e

/-- connector.py lines 238-256: the try body with the except clause that
absorbs every exception into a False return (logging is not modelled). -/
def download_asset (download_web_asset : DownloadCall → Except PyErr Unit)
    (output_path asset_url : String) (asset_metadata : Option RequestMetadata) : Bool :=
  match download_asset_try_body download_web_asset output_path asset_url asset_metadata with
  | Except.ok b => b
  | Except.error _ => false

/-- A profile field holding either a serialized lambda expression (a
string) or a directly supplied function. -/
inductive FieldValue (α : Type)
  | str (s : String)
  | fn (f : α)

/-- A raw profile dictionary: every key may be absent (Python KeyError on
access).  Field names follow the profile schema of connector.py lines
104-122 (renamed to camel case where needed). -/
structure RawProfile where
  source : Option String
  base_url : Option String
  authorization : Option String
  feedInfoParser : Option (FieldValue (Parsed → Except PyErr String))
  channelInfoParser : Option (FieldValue (Parsed → Except PyErr String))
  assetInfoParser : Option (FieldValue (Parsed → Except PyErr String))
  channel_extractor : Option (FieldValue (Parsed → Except PyErr (List String)))
  asset_extractor : Option (FieldValue (Parsed → Except PyErr (List String)))
  file_extractor : Option (FieldValue (Parsed → Except PyErr (List String)))

/-- connector.py lines 131-138: a string field is resolved through
get_lambda_function_from_string (the parameter resolve), a function
field is used directly. -/
def resolveField {α : Type} (resolve : String → α) : FieldValue α → α
  | FieldValue.str s => resolve s
  | FieldValue.fn f => f

/-- connector.py lines 101-138 (ProfileConnector.__init__).  env models
cfg.ENV.get; resolveInfo and resolveExtract model the external
get_lambda_function_from_string at the two field types.  Each dictionary
access with a missing key raises KeyError, in program order, and no
connector object is produced. -/
def profileConnectorInit (env : String → Option String)
    (resolveInfo : String → Parsed → Except PyErr String)
    (resolveExtract : String → Parsed → Except PyErr (List String))
    (profile : RawProfile) : Except PyErr ProfileConnector :=
  match profile.source with
  | none => Except.error (PyErr.keyError "source")
  | some src =>
  match profile.base_url with
  | none => Except.error (PyErr.keyError "base_url")
  | some burl =>
  match profile.authorization with
  | none => Except.error (PyErr.keyError "authorization")
  | some auth =>
  match profile.feedInfoParser with
  | none => Except.error (PyErr.keyError "feed_info_parser")
  | some fip =>
  match profile.channelInfoParser with
  | none => Except.error (PyErr.keyError "channel_info_parser")
  | some cip =>
  match profile.assetInfoParser with
  | none => Except.error (PyErr.keyError "asset_info_parser")
  | some aip =>
  match profile.channel_extractor with
  | none => Except.error (PyErr.keyError "channel_extractor")
  | some ce =>
  match profile.asset_extractor with
  | none => Except.error (PyErr.keyError "asset_extractor")
  | some ae =>
  match profile.file_extractor with
  | none => Except.error (PyErr.keyError "file_extractor")
  | some fe =>
  Except.ok
    { source := src
      base_url := burl
      authorization := (env auth).getD auth
      feedInfoParser := resolveField resolveInfo fip
      channelInfoParser := resolveField resolveInfo cip
      assetInfoParser := resolveField resolveInfo aip
      channel_extractor := resolveField resolveExtract ce
      asset_extractor := resolveField resolveExtract ae
      file_extractor := resolveField resolveExtract fe }

/-- A loaded Python module, abstracted to the set of attribute names it
exposes (scraping_plugins.py inspects modules only through hasattr). -/
structure PluginModule where
  symbols : List String
deriving Repr, DecidableEq

/-- The part of the plugin info dictionary that ScrapingPlugin reads. -/
structure PluginInfo where
  connector : Option String
  blueprints : Option String
deriving Repr, DecidableEq

/-- scraping_plugins.py line 33: the function names every connector
module must expose. -/
def required_connector_functions : List String :=
  ["get_source_name", "check_connection", "get_channel_info", "get_asset_info", "download_asset"]

/-- A constructed scraping plugin, reduced to its loaded connector
module. -/
structure ScrapingPlugin where
  connector : PluginModule
deriving Repr, DecidableEq

/-- scraping_plugins.py lines 19-38 (ScrapingPlugin.__init__).
Modelled from the spec: the GenericPlugin base class and
environment_utility.get_module live in modules the repository does not
ship (src/model/plugin_model/plugins.py, src/utility/silver); per the
spec the Plugin Loader is an external collaborator, so the base
construction is assumed to succeed and module loading is the parameter
get_module.  The hasattr check over the five required functions is
translated directly from the source: the first missing one raises
PluginImportException and no plugin object is produced. -/
def scrapingPluginInit (get_module : String → PluginModule)
    (normpath_join : String → String → String)
    (info : PluginInfo) (path : String) : Except PyErr ScrapingPlugin :=
  match info.connector with
  | none => Except.error (PyErr.keyError "connector")
  | some connectorRef =>
    let resolvedE : Except PyErr String :=
      if isSubstring "./".toList connectorRef.toList then
        match info.blueprints with
        | none => Except.error (PyErr.keyError "blueprints")
        | some bp => Except.ok (normpath_join path bp)
      else Except.ok connectorRef
    match resolvedE with
    | Except.error e => Except.error e
    | Except.ok ref =>
      let connector := get_module ref
      match required_connector_functions.find? (fun f => !(connector.symbols.contains f)) with
      | some f => Except.error (PyErr.importException f)
      | none => Except.ok { connector := connector }

/-- One column of the SQLAlchemy schema, reduced to its name and whether
it carries a uniqueness constraint (data_model.py). -/
structure ColumnSpec where
  name : String
  unique : Bool
deriving Repr, DecidableEq

/-- data_model.py lines 44-66 (Source). -/
def source_columns : List ColumnSpec :=
  [⟨"id", true⟩, ⟨"url", true⟩, ⟨"name", false⟩, ⟨"scraping_metadata", false⟩,
   ⟨"info", false⟩, ⟨"created", false⟩, ⟨"updated", false⟩, ⟨"inactive", false⟩]

/-- data_model.py lines 68-96 (Feed). -/
def feed_columns : List ColumnSpec :=
  [⟨"id", true⟩, ⟨"url", true⟩, ⟨"name", false⟩, ⟨"scraping_metadata", false⟩,
   ⟨"info", false⟩, ⟨"created", false⟩, ⟨"updated", false⟩, ⟨"inactive", false⟩,
   ⟨"source_id", false⟩]

/-- data_model.py lines 98-128 (Channel). -/
def channel_columns : List ColumnSpec :=
  [⟨"id", true⟩, ⟨"url", true⟩, ⟨"name", false⟩, ⟨"scraping_metadata", false⟩,
   ⟨"info", false⟩, ⟨"created", false⟩, ⟨"updated", false⟩, ⟨"inactive", false⟩,
   ⟨"source_id", false⟩]

/-- data_model.py lines 130-162 (Asset). -/
def asset_columns : List ColumnSpec :=
  [⟨"id", true⟩, ⟨"url", true⟩, ⟨"scraping_metadata", false⟩,
   ⟨"info", false⟩, ⟨"created", false⟩, ⟨"updated", false⟩, ⟨"inactive", false⟩,
   ⟨"source_id", false⟩, ⟨"channel_id", false⟩]

/-- data_model.py lines 164-194 (File): neither url nor sha256 carries
a uniqueness constraint. -/
def file_columns : List ColumnSpec :=
  [⟨"id", true⟩, ⟨"path", false⟩, ⟨"encoding", false⟩, ⟨"extension", false⟩,
   ⟨"url", false⟩, ⟨"sha256", false⟩, ⟨"created", false⟩, ⟨"updated", false⟩,
   ⟨"inactive", false⟩, ⟨"asset_id", false⟩]

/-- Whether the named column of a table carries a uniqueness constraint. -/
def columnUnique (cols : List ColumnSpec) (c : String) : Bool :=
  match cols.find? (fun col => col.name == c) with
  | some col => col.unique
  | none => false

/-- A row, as an association list from column names to values. -/
def TableRow : Type := List (String × String)

/-- The value a row holds in a column. -/
def rowValue (row : TableRow) (c : String) : Option String :=
  (List.find? (fun p => p.1 == c) row).map (fun p => p.2)

/-- All entries of the list are pairwise different. -/
def allDistinct : List (Option String) → Bool
  | [] => true
  | x :: xs => !(xs.contains x) && allDistinct xs

/-- A set of rows respects every uniqueness constraint of the table:
each unique column holds pairwise distinct values. -/
def uniqueConstraintsOk (cols : List ColumnSpec) (rows : List TableRow) : Bool :=
  cols.all (fun col => !col.unique || allDistinct (rows.map (fun r => rowValue r col.name)))

/-- Modelled from the spec: one Registry row, carrying the natural key,
the mergeable mutable fields, the auto-maintained timestamps and the
soft-delete flag (spec sections 3 and 4.3; the Content Registry
implementation is not shipped in the repository). -/
structure RegRow where
  id : Nat
  entity_type : String
  natural_key : String
  fields : List (String × String)
  created : Nat
  updated : Nat
  inactive : Bool
deriving Repr, DecidableEq

/-- Modelled from the spec: the persistent entity store with an
autoincrementing id counter. -/
structure Registry where
  rows : List RegRow
  next_id : Nat
deriving Repr, DecidableEq

/-- Modelled from the spec: merging mutable fields, new values taking
precedence over old ones, keys absent from the update kept. -/
def mergeFields (old new : List (String × String)) : List (String × String) :=
  old.filter (fun p => !(new.any (fun q => q.1 == p.1))) ++ new

/-- The natural-key lookup predicate of upsert: same entity type, same
natural key, and not soft-deleted. -/
def activePred (etype key : String) (r : RegRow) : Bool :=
  r.entity_type == etype && r.natural_key == key && !r.inactive

/-- The in-place update upsert applies to the matched row: merge the
mutable fields and refresh the updated timestamp; every other row is
left alone. -/
def mergeRowMap (i : Nat) (now : Nat) (f : List (String × String)) (r : RegRow) : RegRow :=
  if r.id == i then { r with fields := mergeFields r.fields f, updated := now } else r

/-- A freshly created row: both timestamps set to now, active. -/
def newRow (i now : Nat) (etype key : String) (f : List (String × String)) : RegRow :=
  { id := i, entity_type := etype, natural_key := key, fields := f,
    created := now, updated := now, inactive := false }

/-- Modelled from the spec (section 4.3): upsert(entity_type,
natural_key, fields) returns the updated store and the row id.  If a row
with the natural key exists and is not inactive, its mutable fields are
merged and updated is refreshed; otherwise a new row is created. -/
def Registry.upsert (reg : Registry) (now : Nat) (etype key : String)
    (f : List (String × String)) : Registry × Nat :=
  match reg.rows.find? (activePred etype key) with
  | some r =>
    ({ reg with rows := reg.rows.map (mergeRowMap r.id now f) }, r.id)
  | none =>
    ({ rows := reg.rows ++ [newRow reg.next_id now etype key f],
       next_id := reg.next_id + 1 }, reg.next_id)

/-- A concrete connector used to exercise the theorems on explicit
inputs. -/
def exampleConnector : ProfileConnector :=
  { source := "example"
    base_url := "https://example.com"
    authorization := "token"
    feedInfoParser := fun _ => Except.ok "feed-info"
    channelInfoParser := fun _ => Except.ok "channel-info"
    assetInfoParser := fun _ => Except.ok "asset-info"
    channel_extractor := fun _ => Except.ok ["https://example.com/c1", "https://example.com/c2"]
    asset_extractor := fun _ => Except.ok ["https://example.com/a1"]
    file_extractor := fun _ => Except.ok ["https://example.com/f1"] }

/-- A connector whose asset extractor raises. -/
def errConnector : ProfileConnector :=
  { exampleConnector with asset_extractor := fun _ => Except.error (PyErr.parserError "boom") }

/-- A fixed response body for every request. -/
def netEx : String → RequestMetadata → String := fun _ _ => "content"

/-- A json.loads model that always fails with JSONDecodeError. -/
def jlNoneEx : String → Option String := fun _ => none

/-- A json.loads model that always succeeds. -/
def jlSomeEx : String → Option String := fun _ => some "json-doc"

/-- An html.fromstring model that always succeeds. -/
def hfOkEx : String → Except PyErr String := fun _ => Except.ok "html-doc"

/-- Empty request metadata (all optional keys absent). -/
def mdEx : RequestMetadata := {}

/-- A download helper that succeeds. -/
def dlOkEx : DownloadCall → Except PyErr Unit := fun _ => Except.ok ()

/-- A download helper that raises. -/
def dlFailEx : DownloadCall → Except PyErr Unit := fun _ => Except.error (PyErr.other "io")

/-- A one-row registry holding a channel. -/
def regEx : Registry :=
  { rows := [{ id := 7, entity_type := "channel",
               natural_key := "https://example.com/c1",
               fields := [("info", "old")], created := 0, updated := 0,
               inactive := false }],
    next_id := 8 }

/-- An environment with no variables set. -/
def envEx : String → Option String := fun _ => none

/-- A resolver model for info parsers: the serialized expression becomes
a parser returning the expression text. -/
def riEx : String → Parsed → Except PyErr String := fun s _ => Except.ok s

/-- A resolver model for extractors. -/
def reEx : String → Parsed → Except PyErr (List String) := fun s _ => Except.ok [s]

/-- A complete profile, with parsers given as serialized strings and the
file extractor given directly as a function. -/
def profEx : RawProfile :=
  { source := some "example"
    base_url := some "https://example.com"
    authorization := some "API_KEY"
    feedInfoParser := some (FieldValue.str "lambda-feed")
    channelInfoParser := some (FieldValue.str "lambda-channel")
    assetInfoParser := some (FieldValue.str "lambda-asset")
    channel_extractor := some (FieldValue.str "lambda-channels")
    asset_extractor := some (FieldValue.str "lambda-assets")
    file_extractor := some (FieldValue.fn (fun _ => Except.ok ["https://example.com/f1"])) }

/-- A module loader returning a module that lacks download_asset. -/
def gmEx : String → PluginModule :=
  fun _ => { symbols := ["get_source_name", "check_connection", "get_channel_info", "get_asset_info"] }

/-- A path-join model. -/
def njEx : String → String → String := fun a b => a ++ "/" ++ b

/-- Plugin info naming a connector module, without blueprints. -/
def infoEx : PluginInfo := { connector := some "connector_module", blueprints := none }

/-- Two File rows sharing a url but differing in content hash. -/
def fileRowA : TableRow :=
  [("id", "1"), ("path", "/data/a"), ("encoding", "utf-8"), ("extension", ".bin"),
   ("url", "https://example.com/f"), ("sha256", "aa11")]

/-- Second File row with the same url. -/
def fileRowB : TableRow :=
  [("id", "2"), ("path", "/data/b"), ("encoding", "utf-8"), ("extension", ".bin"),
   ("url", "https://example.com/f"), ("sha256", "bb22")]

/-- Two Source rows sharing a url. -/
def sourceRowA : TableRow := [("id", "1"), ("url", "https://example.com"), ("name", "a")]

/-- Second Source row with the same url. -/
def sourceRowB : TableRow := [("id", "2"), ("url", "https://example.com"), ("name", "b")]

-- Sanity checks of the urlparse model on concrete URLs.
example : netloc "https://example.com/page" = "example.com" := by decide
example : netloc "https://e.com/x" = "e.com" := by decide
example : netloc "x" = "" := by decide
example : netloc "//host/p" = "host" := by decide

/-- The empty needle is a substring of everything, as in Python. -/
theorem isSubstring_nil (h : List Char) : isSubstring [] h = true := by
  induction h with
  | nil => rfl
  | cons c t ih => simp [isSubstring, List.isPrefixOf]

/-- A contiguous sublist is found by the substring test. -/
theorem isSubstring_of_contig {l h : List Char} (hinf : l <:+: h) :
    isSubstring l h = true := by
  obtain ⟨s, t, rfl⟩ := hinf
  induction s with
  | nil =>
    cases l with
    | nil => exact isSubstring_nil _
    | cons x xs =>
      have hp : (x :: xs).isPrefixOf (x :: xs ++ t) = true :=
        List.isPrefixOf_iff_prefix.mpr (by simp)
      simp [isSubstring, hp]
  | cons c s ih =>
    simp only [List.cons_append]
    show isSubstring l (c :: (s ++ l ++ t)) = true
    simp only [isSubstring, Bool.or_eq_true]
    right
    simpa using ih

/-- The scheme-splitting step only ever drops a prefix of the URL. -/
theorem dropScheme_suffix (cs : List Char) : dropScheme cs <:+ cs := by
  unfold dropScheme
  split
  · exact List.suffix_rfl
  · next c after heq =>
    split
    · exact List.suffix_rfl
    · split
      · exact (List.suffix_cons c after).trans (heq ▸ List.dropWhile_suffix _)
      · exact List.suffix_rfl

/-- The extracted network location is a contiguous substring of the URL. -/
theorem netlocChars_within (cs : List Char) : netlocChars cs <:+: cs := by
  unfold netlocChars
  split
  · next rest heq =>
    have h1 : rest.takeWhile netlocChar <+: rest := List.takeWhile_prefix _
    have h2 : rest <:+ dropScheme cs :=
      (List.suffix_cons '/' rest).trans (heq ▸ List.suffix_cons '/' ('/' :: rest))
    exact h1.isInfix.trans ((h2.trans (dropScheme_suffix cs)).isInfix)
  · exact List.nil_infix

/-- Merging only rewrites mutable fields, so the natural-key lookup
predicate is unchanged by it. -/
theorem activePred_mergeRowMap (t k : String) (i n : Nat)
    (f : List (String × String)) (r : RegRow) :
    activePred t k (mergeRowMap i n f r) = activePred t k r := by
  unfold mergeRowMap
  split <;> rfl

/-- The natural-key lookup commutes with the merge update. -/
theorem find?_map_mergeRowMap (t k : String) (i n : Nat)
    (f : List (String × String)) (l : List RegRow) :
    (l.map (mergeRowMap i n f)).find? (activePred t k)
      = (l.find? (activePred t k)).map (mergeRowMap i n f) := by
  have hpg : activePred t k ∘ mergeRowMap i n f = activePred t k :=
    funext (fun r => activePred_mergeRowMap t k i n f r)
  rw [List.find?_map, hpg]

/-- The merge branch of upsert, explicitly. -/
theorem upsert_merge (reg : Registry) (n : Nat) (t k : String)
    (f : List (String × String)) (r : RegRow)
    (h : reg.rows.find? (activePred t k) = some r) :
    reg.upsert n t k f
      = ({ reg with rows := reg.rows.map (mergeRowMap r.id n f) }, r.id) := by
  unfold Registry.upsert
  rw [h]

/-- The create branch of upsert, explicitly. -/
theorem upsert_create (reg : Registry) (n : Nat) (t k : String)
    (f : List (String × String))
    (h : reg.rows.find? (activePred t k) = none) :
    reg.upsert n t k f
      = ({ rows := reg.rows ++ [newRow reg.next_id n t k f],
           next_id := reg.next_id + 1 }, reg.next_id) := by
  unfold Registry.upsert
  rw [h]

/-- A fresh row matches its own natural-key lookup. -/
theorem activePred_newRow (t k : String) (i n : Nat) (f : List (String × String)) :
    activePred t k (newRow i n t k f) = true := by
  simp [activePred, newRow]

/-- Fields whose keys all occur in the update are filtered away. -/
theorem filter_self_merge (f : List (String × String)) :
    f.filter (fun p => !(f.any (fun q => q.1 == p.1))) = [] := by
  rw [List.filter_eq_nil_iff]
  intro a ha
  simp only [Bool.not_eq_true', Bool.not_eq_false]
  exact List.any_eq_true.mpr ⟨a, ha, by simp⟩

/-- Merging the same update twice is the same as merging it once. -/
theorem mergeFields_idem (x f : List (String × String)) :
    mergeFields (mergeFields x f) f = mergeFields x f := by
  unfold mergeFields
  rw [List.filter_append, filter_self_merge, List.append_nil, List.filter_filter]
  congr 1
  apply List.filter_congr
  intro a _
  exact Bool.and_self _

/-- Merging into the empty field set gives the update itself. -/
theorem mergeFields_nil (f : List (String × String)) : mergeFields [] f = f := rfl

/-- After any upsert a non-inactive row with the upserted natural key is
found, it carries the returned id, its updated stamp is the call's
timestamp, and its fields already absorb the update. -/
theorem upsert_finds (reg : Registry) (n : Nat) (t k : String)
    (f : List (String × String)) :
    ∃ r, (reg.upsert n t k f).1.rows.find? (activePred t k) = some r ∧
      r.id = (reg.upsert n t k f).2 ∧ r.updated = n ∧ r.inactive = false ∧
      mergeFields r.fields f = r.fields := by
  cases h : reg.rows.find? (activePred t k) with
  | none =>
    rw [upsert_create reg n t k f h]
    refine ⟨newRow reg.next_id n t k f, ?_, rfl, rfl, rfl, ?_⟩
    · rw [List.find?_append, h]
      simp [List.find?_cons_of_pos, activePred_newRow]
    · have hidem := mergeFields_idem [] f
      rwa [mergeFields_nil] at hidem
  | some r =>
    rw [upsert_merge reg n t k f r h]
    have hr : activePred t k r = true := List.find?_some h
    have hinact : r.inactive = false := by
      simp only [activePred, Bool.and_eq_true, Bool.not_eq_true'] at hr
      exact hr.2
    refine ⟨mergeRowMap r.id n f r, ?_, ?_, ?_, ?_, ?_⟩
    · rw [find?_map_mergeRowMap, h]
      rfl
    · simp [mergeRowMap]
    · simp [mergeRowMap]
    · simp [mergeRowMap, hinact]
    · simp only [mergeRowMap, beq_self_eq_true, if_true]
      exact mergeFields_idem r.fields f

/-- Claim C2: a traversal method called with its registration callbacks
given fetches and parses the response once, invokes each callback once
per extracted descriptor in exactly the extractor's order with no
reordering or deduplication, and returns the resolved info parser
applied to the same parsed response. -/
theorem scrape_traversal_callback_order (c : ProfileConnector)
    (net : String → RequestMetadata → String) (jl : String → Option String)
    (hfs : String → Except PyErr String) (url : String) (m : RequestMetadata) (p : Parsed)
    (hb : _build_request_from_metadata net jl hfs url (some m) = Except.ok p) :
    (∀ cs as, c.channel_extractor p = Except.ok cs → c.asset_extractor p = Except.ok as →
      scrape_feed c net jl hfs url (some m) true true
        = (ScrapeEvent.fetch url :: (cs.map (ScrapeEvent.cb "channel")
            ++ as.map (ScrapeEvent.cb "asset")), c.feedInfoParser p)) ∧
    (∀ as, c.asset_extractor p = Except.ok as →
      scrape_channel c net jl hfs url (some m) true
        = (ScrapeEvent.fetch url :: as.map (ScrapeEvent.cb "asset"), c.channelInfoParser p)) ∧
    (∀ fs, c.file_extractor p = Except.ok fs →
      scrape_asset c net jl hfs url (some m) true
        = (ScrapeEvent.fetch url :: fs.map (ScrapeEvent.cb "file"), c.assetInfoParser p)) := by
  refine ⟨?_, ?_, ?_⟩
  · intro cs as hcs has
    simp [scrape_feed, hb, hcs, has, requestTrace]
  · intro as has
    simp [scrape_channel, hb, has, requestTrace]
  · intro fs hfl
    simp [scrape_asset, hb, hfl, requestTrace]

/-- Witness for C2: on a concrete connector and response, scrape_channel
issues one fetch, registers the one extracted asset, and returns the
channel info parser's value. -/
theorem scrape_traversal_callback_order_witness :
    scrape_channel exampleConnector netEx jlSomeEx hfOkEx "https://example.com/c1" (some mdEx) true
      = ([ScrapeEvent.fetch "https://example.com/c1",
          ScrapeEvent.cb "asset" "https://example.com/a1"], Except.ok "channel-info") := by
  have h := (scrape_traversal_callback_order exampleConnector netEx jlSomeEx hfOkEx
      "https://example.com/c1" mdEx (Parsed.jsonValue "json-doc") rfl).2.1
      ["https://example.com/a1"] rfl
  simpa [exampleConnector] using h

/-- Claim C3: response interpretation tries the strict JSON parse first
and returns its result on success; exactly when the JSON parse fails the
body is parsed as HTML and that result is returned without raising, and
the call errors exactly when both parses fail. -/
theorem json_first_html_fallback (net : String → RequestMetadata → String)
    (jl : String → Option String) (hfs : String → Except PyErr String)
    (url : String) (m : RequestMetadata) :
    (∀ j, jl (net url m) = some j →
      _build_request_from_metadata net jl hfs url (some m) = Except.ok (Parsed.jsonValue j)) ∧
    (∀ h, jl (net url m) = none → hfs (net url m) = Except.ok h →
      _build_request_from_metadata net jl hfs url (some m) = Except.ok (Parsed.htmlTree h)) ∧
    ((∃ e, _build_request_from_metadata net jl hfs url (some m) = Except.error e) ↔
      (jl (net url m) = none ∧ ∃ e, hfs (net url m) = Except.error e)) := by
  refine ⟨?_, ?_, ?_⟩
  · intro j hj
    simp [_build_request_from_metadata, hj]
  · intro h hj hh
    simp [_build_request_from_metadata, hj, hh]
  · cases hj : jl (net url m) with
    | some j => simp [_build_request_from_metadata, hj]
    | none =>
      cases hh : hfs (net url m) with
      | ok h => simp [_build_request_from_metadata, hj, hh]
      | error e => simp [_build_request_from_metadata, hj, hh]

/-- Witness for C3: with a body the JSON parser rejects, the HTML parse
result is returned without an error. -/
theorem json_first_html_fallback_witness :
    _build_request_from_metadata netEx jlNoneEx hfOkEx "https://example.com" (some mdEx)
      = Except.ok (Parsed.htmlTree "html-doc") :=
  (json_first_html_fallback netEx jlNoneEx hfOkEx "https://example.com" mdEx).2.1
    "html-doc" rfl rfl

/-- Claim C4: download_asset never propagates an exception.  When the
try body completes it returns true, and every error of the body is
absorbed into a false return. -/
theorem download_asset_absorbs_failures (dl : DownloadCall → Except PyErr Unit)
    (output_path asset_url : String) (asset_metadata : Option RequestMetadata) :
    (∀ b, download_asset_try_body dl output_path asset_url asset_metadata = Except.ok b →
      download_asset dl output_path asset_url asset_metadata = b ∧ b = true) ∧
    (∀ e, download_asset_try_body dl output_path asset_url asset_metadata = Except.error e →
      download_asset dl output_path asset_url asset_metadata = false) := by
  constructor
  · intro b hb
    refine ⟨by simp [download_asset, hb], ?_⟩
    cases hmd : asset_metadata with
    | none =>
      rw [hmd] at hb
      simp [download_asset_try_body] at hb
    | some md =>
      rw [hmd] at hb
      simp only [download_asset_try_body] at hb
      cases hdl : dl (downloadCallOf output_path asset_url md) with
      | ok u =>
        rw [hdl] at hb
        simpa using hb.symm
      | error e =>
        rw [hdl] at hb
        simp at hb
  · intro e he
    simp [download_asset, he]

/-- Witness for C4: a completing download returns true and a raising one
returns false, at concrete inputs. -/
theorem download_asset_absorbs_failures_witness :
    download_asset dlOkEx "/data/out" "https://example.com/a1" (some mdEx) = true ∧
    download_asset dlFailEx "/data/out" "https://example.com/a1" (some mdEx) = false := by
  constructor
  · exact ((download_asset_absorbs_failures dlOkEx "/data/out" "https://example.com/a1"
      (some mdEx)).1 true rfl).1
  · exact (download_asset_absorbs_failures dlFailEx "/data/out" "https://example.com/a1"
      (some mdEx)).2 (PyErr.other "io") rfl

/-- Claim C10: with asset_metadata left at its default None, the
attribute access on None raises inside the guarded block, so
download_asset returns false for every download helper and never
propagates the error. -/
theorem download_asset_none_metadata_false (dl : DownloadCall → Except PyErr Unit)
    (output_path asset_url : String) :
    download_asset dl output_path asset_url none = false := by
  simp [download_asset, download_asset_try_body]

/-- Claim C6: when a resolved extractor or parser raises on the fetched
response, the very same error is the result of the scrape method: the
connector neither catches it nor converts it into a partial result. -/
theorem scrape_extraction_error_propagates (c : ProfileConnector)
    (net : String → RequestMetadata → String) (jl : String → Option String)
    (hfs : String → Except PyErr String) (url : String) (m : RequestMetadata)
    (p : Parsed) (e : PyErr)
    (hb : _build_request_from_metadata net jl hfs url (some m) = Except.ok p) :
    (c.channel_extractor p = Except.error e →
      (scrape_feed c net jl hfs url (some m) true true).2 = Except.error e) ∧
    (∀ cs, c.channel_extractor p = Except.ok cs → c.asset_extractor p = Except.error e →
      (scrape_feed c net jl hfs url (some m) true true).2 = Except.error e) ∧
    (∀ cs as, c.channel_extractor p = Except.ok cs → c.asset_extractor p = Except.ok as →
      c.feedInfoParser p = Except.error e →
      (scrape_feed c net jl hfs url (some m) true true).2 = Except.error e) ∧
    (c.asset_extractor p = Except.error e →
      (scrape_channel c net jl hfs url (some m) true).2 = Except.error e) ∧
    (∀ as, c.asset_extractor p = Except.ok as → c.channelInfoParser p = Except.error e →
      (scrape_channel c net jl hfs url (some m) true).2 = Except.error e) ∧
    (c.file_extractor p = Except.error e →
      (scrape_asset c net jl hfs url (some m) true).2 = Except.error e) ∧
    (∀ fs, c.file_extractor p = Except.ok fs → c.assetInfoParser p = Except.error e →
      (scrape_asset c net jl hfs url (some m) true).2 = Except.error e) := by
  refine ⟨?_, ?_, ?_, ?_, ?_, ?_, ?_⟩
  · intro hce
    simp [scrape_feed, hb, hce]
  · intro cs hcs hae
    simp [scrape_feed, hb, hcs, hae]
  · intro cs as hcs has hfe
    simp [scrape_feed, hb, hcs, has, hfe]
  · intro hae
    simp [scrape_channel, hb, hae]
  · intro as has hce
    simp [scrape_channel, hb, has, hce]
  · intro hfe
    simp [scrape_asset, hb, hfe]
  · intro fs hfl hae
    simp [scrape_asset, hb, hfl, hae]

/-- Witness for C6: a raising asset extractor makes scrape_channel
return exactly that error on concrete inputs. -/
theorem scrape_extraction_error_propagates_witness :
    (scrape_channel errConnector netEx jlSomeEx hfOkEx "https://example.com/c1"
      (some mdEx) true).2 = Except.error (PyErr.parserError "boom") :=
  (scrape_extraction_error_propagates errConnector netEx jlSomeEx hfOkEx
      "https://example.com/c1" mdEx (Parsed.jsonValue "json-doc")
      (PyErr.parserError "boom") rfl).2.2.2.1 rfl

/-- Claim C1: upsert is idempotent.  While a non-inactive row for the
natural key exists, a repeated upsert merges the mutable fields of that
row and refreshes updated instead of creating a new row; hence a second
upsert with the same key returns the same id and leaves the row count
unchanged. -/
theorem upsert_idempotent_registration :
    (∀ (reg : Registry) (n : Nat) (t k : String) (f : List (String × String)) (r : RegRow),
      reg.rows.find? (activePred t k) = some r →
      reg.upsert n t k f
        = ({ reg with rows := reg.rows.map (mergeRowMap r.id n f) }, r.id) ∧
      (reg.upsert n t k f).1.rows.length = reg.rows.length) ∧
    (∀ (reg : Registry) (n1 n2 : Nat) (t k : String) (f : List (String × String)),
      ((reg.upsert n1 t k f).1.upsert n2 t k f).2 = (reg.upsert n1 t k f).2 ∧
      ((reg.upsert n1 t k f).1.upsert n2 t k f).1.rows.length
        = (reg.upsert n1 t k f).1.rows.length) := by
  constructor
  · intro reg n t k f r h
    refine ⟨upsert_merge reg n t k f r h, ?_⟩
    rw [upsert_merge reg n t k f r h]
    simp
  · intro reg n1 n2 t k f
    obtain ⟨r1, hfind, hid, _, _, _⟩ := upsert_finds reg n1 t k f
    rw [upsert_merge _ n2 t k f r1 hfind]
    exact ⟨hid, by simp⟩

/-- Witness for C1: on a concrete registry holding the key, upsert
merges in place returning the existing id, and a double upsert returns
that id again. -/
theorem upsert_idempotent_registration_witness :
    regEx.upsert 5 "channel" "https://example.com/c1" [("info", "new")]
      = ({ regEx with rows := regEx.rows.map (mergeRowMap 7 5 [("info", "new")]) }, 7) ∧
    ((regEx.upsert 1 "channel" "https://example.com/c1" [("info", "new")]).1.upsert
        2 "channel" "https://example.com/c1" [("info", "new")]).2
      = (regEx.upsert 1 "channel" "https://example.com/c1" [("info", "new")]).2 := by
  constructor
  · exact (upsert_idempotent_registration.1 regEx 5 "channel" "https://example.com/c1"
      [("info", "new")]
      { id := 7, entity_type := "channel", natural_key := "https://example.com/c1",
        fields := [("info", "old")], created := 0, updated := 0, inactive := false }
      (by decide)).1
  · exact (upsert_idempotent_registration.2 regEx 1 2 "channel" "https://example.com/c1"
      [("info", "new")]).1

/-- Claim C5: construction succeeds exactly when every required profile
field is present (a missing field raises KeyError and yields no
connector), and each parser/extractor field given as a string is
resolved through the expression resolver while one given as a function
is used directly. -/
theorem profile_construction_fail_fast (env : String → Option String)
    (resolveInfo : String → Parsed → Except PyErr String)
    (resolveExtract : String → Parsed → Except PyErr (List String))
    (p : RawProfile) :
    ((profileConnectorInit env resolveInfo resolveExtract p).isOk = true ↔
      (p.source.isSome = true ∧ p.base_url.isSome = true ∧ p.authorization.isSome = true ∧
       p.feedInfoParser.isSome = true ∧ p.channelInfoParser.isSome = true ∧
       p.assetInfoParser.isSome = true ∧ p.channel_extractor.isSome = true ∧
       p.asset_extractor.isSome = true ∧ p.file_extractor.isSome = true)) ∧
    (∀ src burl auth fip cip aip ce ae fe,
      p.source = some src → p.base_url = some burl → p.authorization = some auth →
      p.feedInfoParser = some fip → p.channelInfoParser = some cip →
      p.assetInfoParser = some aip → p.channel_extractor = some ce →
      p.asset_extractor = some ae → p.file_extractor = some fe →
      profileConnectorInit env resolveInfo resolveExtract p = Except.ok
        { source := src, base_url := burl, authorization := (env auth).getD auth,
          feedInfoParser := resolveField resolveInfo fip,
          channelInfoParser := resolveField resolveInfo cip,
          assetInfoParser := resolveField resolveInfo aip,
          channel_extractor := resolveField resolveExtract ce,
          asset_extractor := resolveField resolveExtract ae,
          file_extractor := resolveField resolveExtract fe }) ∧
    (∀ s, resolveField resolveInfo (FieldValue.str s) = resolveInfo s) ∧
    (∀ g, resolveField resolveInfo (FieldValue.fn g) = g) := by
  obtain ⟨s, b, a, f1, f2, f3, e1, e2, e3⟩ := p
  refine ⟨?_, ?_, fun _ => rfl, fun _ => rfl⟩
  · cases s <;> cases b <;> cases a <;> cases f1 <;> cases f2 <;> cases f3 <;>
      cases e1 <;> cases e2 <;> cases e3 <;>
      simp [profileConnectorInit, Except.isOk, Except.toBool]
  · intro src burl auth fip cip aip ce ae fe hs hb ha h1 h2 h3 h4 h5 h6
    subst hs; subst hb; subst ha; subst h1; subst h2; subst h3; subst h4; subst h5; subst h6
    rfl

/-- Witness for C5: a complete concrete profile constructs successfully. -/
theorem profile_construction_fail_fast_witness :
    (profileConnectorInit envEx riEx reEx profEx).isOk = true :=
  (profile_construction_fail_fast envEx riEx reEx profEx).1.mpr
    ⟨rfl, rfl, rfl, rfl, rfl, rfl, rfl, rfl, rfl⟩

/-- Counterexample to C7: for the connector with base_url
https://example.com and the URL https://e.com/x the method returns true
(the netloc e.com is a substring of the base_url) although the URL's
network location does not match the connector's authority example.com,
so responsibility is not equivalent to an authority match. -/
theorem validate_url_responsiblity_not_authority_equivalence :
    ¬ (exampleConnector.validate_url_responsiblity "https://e.com/x" = true ↔
        authorityMatches exampleConnector "https://e.com/x" = true) := by
  decide

/-- Claim C7 as amended: validate_url_responsiblity returns true
whenever the URL's network location equals the netloc of the
connector's base_url, but not only then: it tests substring containment
of the URL's netloc in the base_url string, so URLs whose netloc merely
occurs inside base_url (including every URL with an empty netloc) are
also accepted. -/
theorem validate_url_netloc_match_sound (c : ProfileConnector) (url : String)
    (h : netloc url = netloc c.base_url) :
    c.validate_url_responsiblity url = true := by
  have hl : netlocChars url.toList = netlocChars c.base_url.toList := by
    have hdata := congrArg String.data h
    simpa [netloc] using hdata
  unfold ProfileConnector.validate_url_responsiblity
  rw [hl]
  exact isSubstring_of_contig (netlocChars_within _)

/-- Witness for the amended C7: a URL on the connector's own authority
is accepted. -/
theorem validate_url_netloc_match_sound_witness :
    exampleConnector.validate_url_responsiblity "https://example.com/page" = true :=
  validate_url_netloc_match_sound exampleConnector "https://example.com/page" (by decide)

/-- Claim C8: a connector module lacking any of the five required
symbols makes ScrapingPlugin construction fail with a
PluginImportException naming a missing required function, so no plugin
object exists at runtime. -/
theorem plugin_missing_symbol_fails_at_load (get_module : String → PluginModule)
    (normpath_join : String → String → String) (info : PluginInfo)
    (path ref fname : String)
    (hc : info.connector = some ref)
    (hd : isSubstring "./".toList ref.toList = false)
    (hreq : fname ∈ required_connector_functions)
    (hmiss : (get_module ref).symbols.contains fname = false) :
    ∃ g, scrapingPluginInit get_module normpath_join info path
        = Except.error (PyErr.importException g) ∧
      g ∈ required_connector_functions ∧
      (get_module ref).symbols.contains g = false := by
  unfold scrapingPluginInit
  rw [hc]
  simp only [hd, Bool.false_eq_true, if_false]
  cases hfind : required_connector_functions.find?
      (fun f => !((get_module ref).symbols.contains f)) with
  | none =>
    exfalso
    have hall := List.find?_eq_none.mp hfind fname hreq
    simp only [Bool.not_eq_true] at hall
    simp at hall hmiss
    exact hmiss hall
  | some g =>
    refine ⟨g, ?_, List.mem_of_find?_eq_some hfind, ?_⟩
    · simp [hfind]
    · have hg := List.find?_some hfind
      simpa using hg

/-- Witness for C8: loading a module without download_asset fails with
a PluginImportException at construction. -/
theorem plugin_missing_symbol_fails_at_load_witness :
    ∃ g, scrapingPluginInit gmEx njEx infoEx "/plugins"
        = Except.error (PyErr.importException g) ∧
      g ∈ required_connector_functions ∧
      (gmEx "connector_module").symbols.contains g = false :=
  plugin_missing_symbol_fails_at_load gmEx njEx infoEx "/plugins" "connector_module"
    "download_asset" rfl (by decide) (by decide) (by decide)

/-- Claim C9: the url column is unique on Source, Feed, Channel and
Asset but not on File, so two File rows may share a url (while two
Source rows may not). -/
theorem url_unique_except_file :
    columnUnique source_columns "url" = true ∧
    columnUnique feed_columns "url" = true ∧
    columnUnique channel_columns "url" = true ∧
    columnUnique asset_columns "url" = true ∧
    columnUnique file_columns "url" = false ∧
    rowValue fileRowA "url" = rowValue fileRowB "url" ∧
    uniqueConstraintsOk file_columns [fileRowA, fileRowB] = true ∧
    uniqueConstraintsOk source_columns [sourceRowA, sourceRowB] = false := by
  decide
